import Mathlib

set_option maxHeartbeats 1000000
set_option maxRecDepth 8192

namespace TRSearch

/-! Shallow embedding of the TRSearch repository.

Source files embedded:
  src/trendradar/researcher.py        (class Researcher)
  src/config/researcher.py            (draft-variant class Researcher, here ConfigResearcher)
  src/trendradar/ai/analyzer.py       (class AIAnalyzer, dataclass AIAnalysisResult)

External collaborators (the requests HTTP library, json.loads, the clock) are
modelled as explicit oracle parameters.  Python exceptions are modelled with
Except PyErr; machine-level details (sockets, files) are out of the embedding. -/

/-- Python string prefix test on character lists: listPrefixOf needle hay is true
when needle is a prefix of hay. -/
def listPrefixOf : List Char → List Char → Bool
  | [], _ => true
  | _ :: _, [] => false
  | a :: as, b :: bs => a == b && listPrefixOf as bs

/-- Python substring operator on character lists: listContainsSub needle hay decides
whether needle occurs contiguously inside hay (true for the empty needle). -/
def listContainsSub (needle : List Char) : List Char → Bool
  | [] => listPrefixOf needle []
  | c :: rest => listPrefixOf needle (c :: rest) || listContainsSub needle rest

/-- Model of the Python expression needle in hay on strings (case-sensitive
contiguous substring test). -/
def strContains (hay needle : String) : Bool :=
  listContainsSub needle.toList hay.toList

/-- Specification-level substring relation: needle occurs contiguously in hay. -/
def SubstrOf (needle hay : String) : Prop :=
  ∃ pre post : List Char, hay.toList = pre ++ needle.toList ++ post

/-- Characters strictly after the first occurrence of sep; empty when sep is absent.
Models the Python expression s.split(sep, 1)[1] (guarded by sep in s at call sites). -/
def charsAfterFirst (sep : List Char) : List Char → List Char
  | [] => []
  | c :: rest =>
    if listPrefixOf sep (c :: rest) then List.drop sep.length (c :: rest)
    else charsAfterFirst sep rest

/-- Characters strictly before the first occurrence of sep; the whole list when sep
is absent.  Models the Python expression s.split(sep, 1)[0]. -/
def charsBeforeFirst (sep : List Char) : List Char → List Char
  | [] => []
  | c :: rest =>
    if listPrefixOf sep (c :: rest) then []
    else c :: charsBeforeFirst sep rest

/-- String wrapper for charsAfterFirst. -/
def strAfterFirst (s sep : String) : String :=
  ⟨charsAfterFirst sep.toList s.toList⟩

/-- String wrapper for charsBeforeFirst. -/
def strBeforeFirst (s sep : String) : String :=
  ⟨charsBeforeFirst sep.toList s.toList⟩

/-- Drop leading whitespace characters. -/
def dropLeadingWs : List Char → List Char
  | [] => []
  | c :: rest => if c.isWhitespace then dropLeadingWs rest else c :: rest

/-- Model of Python str.strip(): remove whitespace from both ends. -/
def pyStrip (s : String) : String :=
  ⟨(dropLeadingWs (dropLeadingWs s.toList).reverse).reverse⟩

/-- Model of the Python slice s[:n]: the first n characters (code points). -/
def pyTake (s : String) (n : Nat) : String :=
  ⟨s.toList.take n⟩

/-- Model of Python str.lower() (ASCII letters; the characters relevant here —
CJK text and the fixed keyword list — are unaffected by case folding). -/
def pyLower (s : String) : String :=
  ⟨s.toList.map Char.toLower⟩

/-- Model of Python sep.join(xs). -/
def pyJoin (sep : String) : List String → String
  | [] => ""
  | [x] => x
  | x :: xs => x ++ sep ++ pyJoin sep xs

/-- Python exceptions that the embedded code can raise or observe.  The isinstance
branches of AIAnalyzer.analyze distinguish requests.exceptions.Timeout and
requests.exceptions.ConnectionError; everything else is reported by type name. -/
inductive PyErr where
  | timeout
  | connectionError
  | attributeError (msg : String)
  | httpError (status : Int)
  | jsonError (msg : String)
  | other (ty : String) (msg : String)
deriving DecidableEq

/-- DecidableEq for Except so concrete runs of the embedded code can be checked
with decide. -/
instance instDecEqExceptTR {ε α : Type} [DecidableEq ε] [DecidableEq α] :
    DecidableEq (Except ε α)
  | .error a, .error b =>
    if h : a = b then .isTrue (by rw [h])
    else .isFalse (fun hc => h (by cases hc; rfl))
  | .error _, .ok _ => .isFalse (fun hc => Except.noConfusion hc)
  | .ok _, .error _ => .isFalse (fun hc => Except.noConfusion hc)
  | .ok a, .ok b =>
    if h : a = b then .isTrue (by rw [h])
    else .isFalse (fun hc => h (by cases hc; rfl))

/-- Attribute state of a trendradar.researcher.Researcher object, as set by
Researcher.__init__ from the DEEP_RESEARCH config dict (config.get defaults:
enabled False, api_key "", trigger_keywords [], max_results 3,
search_depth "advanced", timeout 15). -/
structure Researcher where
  enabled : Bool
  api_key : String
  triggers : List String
  max_results : Int
  search_depth : String
  timeout : Int
deriving DecidableEq

/-- Model of Researcher._should_trigger (src/trendradar/researcher.py lines 17-22):
false when disabled or the api key is empty (Python falsy string), true when the
trigger list is empty, otherwise true iff some trigger keyword is a case-sensitive
substring of the query. -/
def Researcher.shouldTrigger (r : Researcher) (query : String) : Bool :=
  if r.enabled = false ∨ r.api_key = "" then false
  else if r.triggers = [] then true
  else r.triggers.any (fun w => strContains query w)

/-- One entry of the JSON results array returned by the search provider; fields
read with dict.get, hence Options. -/
structure ResultItem where
  content : Option String
  url : Option String
  raw_content : Option String
deriving DecidableEq

/-- The body of an HTTP response, as seen through response.json():
either the parse raises (malformed) or it yields data from which the code reads
data.get("results", []), modelled as the extracted results list. -/
inductive JsonBody where
  | malformed (msg : String)
  | parsed (results : List ResultItem)
deriving DecidableEq

/-- Outcome of one requests.post call: a raised transport error, or a response
with an HTTP status code and a JSON body. -/
inductive HttpOutcome where
  | err (e : PyErr)
  | resp (status : Int) (body : JsonBody)
deriving DecidableEq

/-- The JSON payload sent by Researcher.search_news (the include_urls key is
present only when include_url is passed; modelled as the Bool flag). -/
structure SearchPayload where
  api_key : String
  query : String
  search_depth : String
  max_results : Int
  include_raw_content : Bool
  include_urls : Bool
deriving DecidableEq

/-- Python max_results or self.max_results: None and 0 are falsy, so both fall
back to the default. -/
def pyOrInt : Option Int → Int → Int
  | none, d => d
  | some v, d => if v = 0 then d else v

/-- Model of Researcher.search_news (src/trendradar/researcher.py lines 24-42).
The http oracle stands for requests.post on api.tavily.com/search.  The second
component counts HTTP requests issued.  Note that the function body contains no
try/except: raise_for_status failures (status 400..599), transport errors and
response.json() failures all propagate to the caller. -/
def Researcher.searchNews (r : Researcher) (http : SearchPayload → HttpOutcome)
    (query : String) (include_url : Bool) (max_results : Option Int) :
    (Except PyErr (List ResultItem)) × Nat :=
  if r.shouldTrigger query = false then (.ok [], 0)
  else
    let payload : SearchPayload :=
      { api_key := r.api_key, query := query, search_depth := r.search_depth,
        max_results := pyOrInt max_results r.max_results,
        include_raw_content := true, include_urls := include_url }
    match http payload with
    | .err e => (.error e, 1)
    | .resp status body =>
      if 400 ≤ status ∧ status < 600 then (.error (.httpError status), 1)
      else
        match body with
        | .malformed m => (.error (.jsonError m), 1)
        | .parsed results => (.ok results, 1)

/-- Attribute state of the draft-variant Researcher in src/config/researcher.py
(its __init__ reads only enabled, api_key and trigger_keywords). -/
structure ConfigResearcher where
  enabled : Bool
  api_key : String
  triggers : List String
deriving DecidableEq

/-- The JSON payload built by the config-variant fetch_deep_content. -/
structure ConfigSearchPayload where
  api_key : String
  query : String
  search_depth : String
  max_results : Int
deriving DecidableEq

/-- Model of the config-variant Researcher.fetch_deep_content
(src/config/researcher.py lines 10-34).  Gate: requires enabled and some trigger
keyword occurring in the title (no api-key check; an empty trigger list never
matches).  The whole network interaction sits under a bare except that returns "",
so the function is total; it never checks the HTTP status code.  The second
component counts HTTP requests issued. -/
def ConfigResearcher.fetchDeepContent (r : ConfigResearcher)
    (http : ConfigSearchPayload → HttpOutcome) (title : String) : String × Nat :=
  if r.enabled = false ∨ r.triggers.any (fun w => strContains title w) = false then ("", 0)
  else
    let payload : ConfigSearchPayload :=
      { api_key := r.api_key, query := title ++ " 深度深度分析 行业影响",
        search_depth := "advanced", max_results := 2 }
    match http payload with
    | .err _ => ("", 1)
    | .resp _ (.malformed _) => ("", 1)
    | .resp _ (.parsed results) =>
      let context := pyJoin "\n" (results.map (fun i => i.content.getD ""))
      ("\n【全网深度补全内容】：\n" ++ pyTake context 2000, 1)

/-- One news item dict as consumed by _prepare_news_content: t.get("title", "")
and t.get("source_name", default); a missing source_name is none. -/
structure TitleItem where
  title : String
  source_name : Option String
deriving DecidableEq

/-- One stats group dict: s.get("word", "") and s.get("titles", []). -/
structure StatGroup where
  word : String
  titles : List TitleItem
deriving DecidableEq

/-- The AIAnalysisResult dataclass of src/trendradar/ai/analyzer.py with its
field defaults. -/
structure AIAnalysisResult where
  summary : String := ""
  keyword_analysis : String := ""
  sentiment : String := ""
  cross_platform : String := ""
  impact : String := ""
  signals : String := ""
  conclusion : String := ""
  raw_response : String := ""
  success : Bool := false
  error : String := ""
  total_news : Int := 0
  analyzed_news : Int := 0
  max_news_limit : Int := 0
  hotlist_count : Int := 0
  rss_count : Int := 0
deriving DecidableEq

/-- Attribute state of an AIAnalyzer object as set by __init__ (config defaults:
provider "openai", model "gpt-4o-mini", base_url "", timeout 90,
MAX_NEWS_FOR_ANALYSIS 50, INCLUDE_RSS True); the prompt template is already
loaded into system_prompt / user_prompt_template. -/
structure AIAnalyzer where
  api_key : String
  provider : String
  model : String
  base_url : String
  timeout : Int
  max_news : Int
  include_rss : Bool
  researcher : Researcher
  system_prompt : String
  user_prompt_template : String
deriving DecidableEq

/-- Message of the AttributeError raised when the analyzer dereferences the
missing method (apostrophes of the CPython message elided). -/
def attrMsg : String := "Researcher object has no attribute search_and_research"

/-- The call self.researcher.search_and_research(title) made by
_prepare_news_content (analyzer.py lines 190 and 218).  The Researcher class in
src/trendradar/researcher.py defines no method of that name, so the attribute
lookup raises AttributeError before any network activity can happen. -/
def searchAndResearch (r : Researcher) (title : String) : Except PyErr String :=
  .error (.attributeError attrMsg)

/-- Rendered line for one RSS item (analyzer.py lines 192-196): the source
defaults to "RSS源" and a non-empty research snippet is attached indented. -/
def rssItemLine (t : TitleItem) (extra : String) : String :=
  let line := "- [" ++ t.source_name.getD "RSS源" ++ "] " ++ t.title
  if extra = "" then line else line ++ "\n  └─ 🔍 [深度背景]: " ++ extra

/-- Rendered line for one hot-list item (analyzer.py lines 220-223): the source
defaults to "热榜". -/
def hotItemLine (t : TitleItem) (extra : String) : String :=
  let line := "- [" ++ t.source_name.getD "热榜" ++ "] " ++ t.title
  if extra = "" then line else line ++ "\n  └─ 🔍 [深度背景]: " ++ extra

/-- The fixed secondary allow-list check of the hot-list branch (analyzer.py
line 217): any(k.lower() in title.lower() for k in ["保险", "AI", "安全", "险"]). -/
def hotKeywordHit (title : String) : Bool :=
  (["保险", "AI", "安全", "险"] : List String).any
    (fun k => strContains (pyLower title) (pyLower k))

/-- Inner RSS loop of _prepare_news_content (analyzer.py lines 182-200): skip
empty titles; when the researcher is enabled, call search_and_research (which
raises, see searchAndResearch); append the rendered line; stop as soon as the
running count reaches max_news. -/
def rssItems (rc : Researcher) (mx : Int) :
    List TitleItem → List String → Int → Except PyErr (List String × Int)
  | [], lines, c => .ok (lines, c)
  | t :: ts, lines, c =>
    if t.title = "" then rssItems rc mx ts lines c
    else
      match (if rc.enabled then searchAndResearch rc t.title else .ok "") with
      | .error e => .error e
      | .ok extra =>
        let lines2 := lines ++ [rssItemLine t extra]
        if mx ≤ c + 1 then .ok (lines2, c + 1)
        else rssItems rc mx ts lines2 (c + 1)

/-- Outer RSS loop over rss_stats groups (analyzer.py lines 180-201). -/
def rssGroups (rc : Researcher) (mx : Int) :
    List StatGroup → List String → Int → Except PyErr (List String × Int)
  | [], lines, c => .ok (lines, c)
  | g :: gs, lines, c =>
    match rssItems rc mx g.titles lines c with
    | .error e => .error e
    | .ok (lines2, c2) =>
      if mx ≤ c2 then .ok (lines2, c2)
      else rssGroups rc mx gs lines2 c2

/-- Inner hot-list loop of _prepare_news_content (analyzer.py lines 210-227):
skip empty titles; when the fixed keyword allow-list matches the lowered title,
call search_and_research (which raises — note this branch does not consult
researcher.enabled); append the rendered line; stop at the cap. -/
def hotItems (rc : Researcher) (mx : Int) :
    List TitleItem → List String → Int → Except PyErr (List String × Int)
  | [], lines, c => .ok (lines, c)
  | t :: ts, lines, c =>
    if t.title = "" then hotItems rc mx ts lines c
    else
      match (if hotKeywordHit t.title then searchAndResearch rc t.title else .ok "") with
      | .error e => .error e
      | .ok extra =>
        let lines2 := lines ++ [hotItemLine t extra]
        if mx ≤ c + 1 then .ok (lines2, c + 1)
        else hotItems rc mx ts lines2 (c + 1)

/-- Outer hot-list loop over stats groups (analyzer.py lines 206-228): a group is
processed only when its word and titles are non-empty; the cap is re-checked
after every group. -/
def hotGroups (rc : Researcher) (mx : Int) :
    List StatGroup → List String → Int → Except PyErr (List String × Int)
  | [], lines, c => .ok (lines, c)
  | g :: gs, lines, c =>
    if g.word ≠ "" ∧ g.titles ≠ [] then
      match hotItems rc mx g.titles lines c with
      | .error e => .error e
      | .ok (lines2, c2) =>
        if mx ≤ c2 then .ok (lines2, c2)
        else hotGroups rc mx gs lines2 c2
    else
      if mx ≤ c then .ok (lines, c)
      else hotGroups rc mx gs lines c

/-- sum(len(s.get("titles", [])) for s in gs); the Python guard "if gs else 0"
is the same value since the sum over an empty list is 0. -/
def totalTitles (gs : List StatGroup) : Int :=
  (gs.map (fun g => (g.titles.length : Int))).sum

/-- Model of AIAnalyzer._prepare_news_content (analyzer.py lines 164-230).
Returns ("\n".join(lines), hotlist_total, rss_total, count).  The RSS section is
walked first (header "\n### RSS 重点追踪 (深度增强)") when INCLUDE_RSS is set and
rss_stats is non-empty; the hot-list section (header "\n### 社交热榜趋势") only
when stats is non-empty and the count is still below max_news. -/
def prepareNewsContent (a : AIAnalyzer) (stats rss_stats : List StatGroup) :
    Except PyErr (String × Int × Int × Int) :=
  match (if a.include_rss = true ∧ rss_stats ≠ [] then
           rssGroups a.researcher a.max_news rss_stats ["\n### RSS 重点追踪 (深度增强)"] 0
         else .ok ([], 0)) with
  | .error e => .error e
  | .ok (lines1, c1) =>
    match (if stats ≠ [] ∧ c1 < a.max_news then
             hotGroups a.researcher a.max_news stats (lines1 ++ ["\n### 社交热榜趋势"]) c1
           else .ok (lines1, c1)) with
    | .error e => .error e
    | .ok (lines2, c2) =>
      .ok (pyJoin "\n" lines2, totalTitles stats, totalTitles rss_stats, c2)

/-- Model of the template-content parsing of AIAnalyzer._load_prompt_template
(analyzer.py lines 75-94), applied to the text read from the prompt file (the
missing-file branch, which returns ("", ""), is outside this pure function).
Sectioned parsing happens only when both the [system] and the [user] marker occur
in the content; Python list indexing [1] on a split yields the segment between
the first and the second occurrence of the separator. -/
def loadPromptTemplate (content : String) : String × String :=
  if strContains content "[system]" = true ∧ strContains content "[user]" = true then
    let system_part := strBeforeFirst content "[user]"
    let user_part := strBeforeFirst (strAfterFirst content "[user]") "[user]"
    let system_prompt :=
      if strContains system_part "[system]" then
        pyStrip (strBeforeFirst (strAfterFirst system_part "[system]") "[system]")
      else ""
    (system_prompt, pyStrip user_part)
  else ("", content)

/-- data.get(key, "") on the parsed JSON object, modelled as an association
list. -/
def dictGet (data : List (String × String)) (key : String) : String :=
  (data.lookup key).getD ""

/-- Fence extraction of AIAnalyzer._parse_response (analyzer.py lines 315-319):
prefer the segment after the first occurrence of three backticks followed by
json, cut at the next fence; otherwise the segment between the first and second
plain fence; otherwise the whole response. -/
def extractJsonStr (response : String) : String :=
  if strContains response "```json" then
    strBeforeFirst (strAfterFirst response "```json") "```"
  else if strContains response "```" then
    strBeforeFirst (strAfterFirst response "```") "```"
  else response

/-- Model of AIAnalyzer._parse_response (analyzer.py lines 307-334).  The loads
oracle stands for json.loads composed with the dict requirement: .ok is the
string field map of a parsed JSON object, .error carries the message of the
exception raised (json.loads failing, or .get on a non-dict value).  Empty or
whitespace-only input keeps success False; any loads failure falls back to
success True with the first 1000 characters of the raw response as summary. -/
def parseResponse (loads : String → Except String (List (String × String)))
    (response : String) : AIAnalysisResult :=
  if response = "" ∨ pyStrip response = "" then
    { raw_response := response, error := "AI 返回空响应" }
  else
    match loads (pyStrip (extractJsonStr response)) with
    | .ok data =>
      { raw_response := response,
        summary := dictGet data "summary",
        keyword_analysis := dictGet data "keyword_analysis",
        sentiment := dictGet data "sentiment",
        cross_platform := dictGet data "cross_platform",
        impact := dictGet data "impact",
        signals := dictGet data "signals",
        conclusion := dictGet data "conclusion",
        success := true }
    | .error e =>
      { raw_response := response,
        error := "解析错误: " ++ e,
        summary := pyTake response 1000,
        success := true }

/-- type(e).__name__ for the modelled exceptions. -/
def errTypeName : PyErr → String
  | .timeout => "Timeout"
  | .connectionError => "ConnectionError"
  | .attributeError _ => "AttributeError"
  | .httpError _ => "HTTPError"
  | .jsonError _ => "JSONDecodeError"
  | .other ty _ => ty

/-- str(e) for the modelled exceptions. -/
def errMsg : PyErr → String
  | .timeout => "timed out"
  | .connectionError => "connection refused"
  | .attributeError m => m
  | .httpError s => toString s
  | .jsonError m => m
  | .other _ m => m

/-- The友-message classification of analyze's except branch (analyzer.py lines
152-162): Timeout and ConnectionError get fixed texts, everything else the type
name and the first 150 characters of str(e). -/
def friendly (a : AIAnalyzer) : PyErr → String
  | .timeout => "AI API 请求超时（" ++ toString a.timeout ++ "秒）"
  | .connectionError => "无法连接到 AI API"
  | e => "AI 分析失败 (" ++ errTypeName e ++ "): " ++ pyTake (errMsg e) 150

/-- The eight placeholder substitutions of analyze (analyzer.py lines 133-141),
in source order; str.replace replaces every occurrence; news_count is the
hot-list total, not the grand total. -/
def renderUserPrompt (tmpl report_mode report_type current_time : String)
    (hot rsst : Int) (platforms keywords : List String) (content : String) : String :=
  let s1 := tmpl.replace "\x7breport_mode\x7d" report_mode
  let s2 := s1.replace "\x7breport_type\x7d" report_type
  let s3 := s2.replace "\x7bcurrent_time\x7d" current_time
  let s4 := s3.replace "\x7bnews_count\x7d" (toString hot)
  let s5 := s4.replace "\x7brss_count\x7d" (toString rsst)
  let s6 := s5.replace "\x7bplatforms\x7d"
    (if platforms = [] then "多平台" else pyJoin ", " platforms)
  let s7 := s6.replace "\x7bkeywords\x7d"
    (if keywords = [] then "无" else pyJoin ", " (keywords.take 20))
  s7.replace "\x7bnews_content\x7d" content

/-- The configuration-error message returned when no API key is set. -/
def noApiKeyMsg : String := "未配置 AI API Key，请在 config.yaml 或环境变量 AI_API_KEY 中设置"

/-- Model of AIAnalyzer.analyze (analyzer.py lines 96-162).  callApi stands for
_call_ai_api (the LLM HTTP request), loads for json.loads inside
_parse_response, current_time for get_time_func().strftime(...).  The Nat
component counts LLM HTTP calls attempted.  Faithful control flow: the empty-key
and empty-content guards return early; _prepare_news_content runs OUTSIDE the
try block, so an exception it raises propagates to the caller; only the
callApi/parse section is guarded by try/except with the friendly classifier. -/
def analyze (a : AIAnalyzer) (callApi : String → Except PyErr String)
    (loads : String → Except String (List (String × String)))
    (stats rss_stats : List StatGroup) (report_mode report_type : String)
    (platforms keywords : List String) (current_time : String) :
    (Except PyErr AIAnalysisResult) × Nat :=
  if a.api_key = "" then
    (.ok { success := false, error := noApiKeyMsg }, 0)
  else
    match prepareNewsContent a stats rss_stats with
    | .error e => (.error e, 0)
    | .ok (content, hot, rsst, cnt) =>
      if content = "" then
        (.ok { success := false, error := "没有可分析的新闻内容",
               total_news := hot + rsst, hotlist_count := hot, rss_count := rsst,
               analyzed_news := 0, max_news_limit := a.max_news }, 0)
      else
        let kw := if keywords = [] then (stats.map (fun s => s.word)).filter (fun w => w != "")
                  else keywords
        let prompt := renderUserPrompt a.user_prompt_template report_mode report_type
          current_time hot rsst platforms kw content
        match callApi prompt with
        | .error e => (.ok { success := false, error := friendly a e }, 1)
        | .ok resp =>
          let r := parseResponse loads resp
          (.ok { r with
                  total_news := hot + rsst,
                  hotlist_count := hot,
                  rss_count := rsst,
                  analyzed_news := cnt,
                  max_news_limit := a.max_news }, 1)

/-- A researcher with deep research disabled (the DEEP_RESEARCH defaults). -/
def researcherOff : Researcher :=
  { enabled := false, api_key := "", triggers := [], max_results := 3,
    search_depth := "advanced", timeout := 15 }

/-- A researcher with deep research enabled, an api key and no trigger keywords
(so the gate is open for every query). -/
def researcherOn : Researcher :=
  { enabled := true, api_key := "tvly-key", triggers := [], max_results := 3,
    search_depth := "advanced", timeout := 15 }

/-- Analyzer configuration for the C1 run: valid AI key, RSS included, deep
research enabled. -/
def analyzerC1 : AIAnalyzer :=
  { api_key := "sk-test", provider := "openai", model := "gpt-4o-mini",
    base_url := "", timeout := 90, max_news := 50, include_rss := true,
    researcher := researcherOn, system_prompt := "", user_prompt_template := "" }

/-- Analyzer configuration with max_news = 0 (cap counterexample). -/
def analyzerCapZero : AIAnalyzer :=
  { api_key := "sk-test", provider := "openai", model := "gpt-4o-mini",
    base_url := "", timeout := 90, max_news := 0, include_rss := true,
    researcher := researcherOff, system_prompt := "", user_prompt_template := "" }

/-- Analyzer configuration with max_news = 5 and research disabled. -/
def analyzerCapFive : AIAnalyzer :=
  { api_key := "sk-test", provider := "openai", model := "gpt-4o-mini",
    base_url := "", timeout := 90, max_news := 5, include_rss := true,
    researcher := researcherOff, system_prompt := "", user_prompt_template := "" }

/-- Analyzer configuration with max_news = 1 and research disabled. -/
def analyzerCapOne : AIAnalyzer :=
  { api_key := "sk-test", provider := "openai", model := "gpt-4o-mini",
    base_url := "", timeout := 90, max_news := 1, include_rss := true,
    researcher := researcherOff, system_prompt := "", user_prompt_template := "" }

/-- Analyzer configuration with max_news = 3 and research disabled. -/
def analyzerCapThree : AIAnalyzer :=
  { api_key := "sk-test", provider := "openai", model := "gpt-4o-mini",
    base_url := "", timeout := 90, max_news := 3, include_rss := true,
    researcher := researcherOff, system_prompt := "", user_prompt_template := "" }

/-- Analyzer configuration without an API key; deep research deliberately
enabled and RSS included, so any reached collaborator would be visible. -/
def analyzerNoKey : AIAnalyzer :=
  { api_key := "", provider := "openai", model := "gpt-4o-mini",
    base_url := "", timeout := 90, max_news := 50, include_rss := true,
    researcher := researcherOn, system_prompt := "", user_prompt_template := "" }

/-- A researcher whose gate is closed (disabled) although keywords are set. -/
def researcherGateClosed : Researcher :=
  { enabled := false, api_key := "tvly-key", triggers := ["AI"], max_results := 3,
    search_depth := "advanced", timeout := 15 }

/-- A config-variant researcher with an open gate for titles containing 新. -/
def configResearcherOn : ConfigResearcher :=
  { enabled := true, api_key := "tvly-key", triggers := ["新"] }

/-! Helper lemmas about the string primitives. -/

/-- listPrefixOf decides the prefix relation. -/
theorem listPrefixOf_iff (n : List Char) : ∀ h : List Char,
    listPrefixOf n h = true ↔ ∃ r, h = n ++ r := by
  induction n with
  | nil =>
    intro h
    simp [listPrefixOf]
  | cons a as ih =>
    intro h
    cases h with
    | nil => simp [listPrefixOf]
    | cons b bs =>
      simp only [listPrefixOf, Bool.and_eq_true, beq_iff_eq, ih, List.cons_append,
        List.cons.injEq]
      constructor
      · rintro ⟨hab, r, hr⟩
        exact ⟨r, hab.symm, hr⟩
      · rintro ⟨r, hba, hr⟩
        exact ⟨hba.symm, r, hr⟩

/-- listContainsSub decides the contiguous-substring relation. -/
theorem listContainsSub_iff (n : List Char) : ∀ h : List Char,
    listContainsSub n h = true ↔ ∃ pre post, h = pre ++ n ++ post := by
  intro h
  induction h with
  | nil =>
    simp [listContainsSub, listPrefixOf_iff, List.append_eq_nil]
  | cons c rest ih =>
    simp only [listContainsSub, Bool.or_eq_true, listPrefixOf_iff, ih]
    constructor
    · rintro (⟨r, hr⟩ | ⟨pre, post, hp⟩)
      · exact ⟨[], r, by simpa using hr⟩
      · exact ⟨c :: pre, post, by simp [hp]⟩
    · rintro ⟨pre, post, hp⟩
      cases pre with
      | nil =>
        left
        exact ⟨post, by simpa using hp⟩
      | cons p ps =>
        right
        simp only [List.cons_append, List.cons.injEq] at hp
        exact ⟨ps, post, hp.2⟩

/-- strContains decides SubstrOf. -/
theorem strContains_iff (hay needle : String) :
    strContains hay needle = true ↔ SubstrOf needle hay := by
  unfold strContains SubstrOf
  exact listContainsSub_iff needle.toList hay.toList

/-- Appending to a non-empty string keeps it non-empty. -/
theorem string_append_ne_empty (a b : String) (ha : a ≠ "") : a ++ b ≠ "" := by
  obtain ⟨la⟩ := a
  obtain ⟨lb⟩ := b
  intro hc
  have hd : la ++ lb = ([] : List Char) := congrArg String.data hc
  rcases List.append_eq_nil.mp hd with ⟨h1, -⟩
  exact ha (by rw [h1])

/-! Claim theorems. -/

/-- Claim C2: the trigger gate returns false whenever research is disabled or the
api key is empty; otherwise it returns true when the keyword list is empty, and
for a non-empty list it returns true exactly when some configured keyword is a
case-sensitive substring of the query. -/
theorem shouldTrigger_gate_spec (r : Researcher) (q : String) :
    r.shouldTrigger q = true ↔
      (r.enabled = true ∧ r.api_key ≠ "" ∧
        (r.triggers = [] ∨ ∃ k, k ∈ r.triggers ∧ SubstrOf k q)) := by
  unfold Researcher.shouldTrigger
  by_cases h1 : r.enabled = false ∨ r.api_key = ""
  · rw [if_pos h1]
    constructor
    · intro hfalse
      exact Bool.noConfusion hfalse
    · rintro ⟨he, hk, -⟩
      rcases h1 with h1 | h1
      · rw [he] at h1
        exact Bool.noConfusion h1
      · exact absurd h1 hk
  · rw [if_neg h1]
    obtain ⟨he, hk⟩ := not_or.mp h1
    have he2 : r.enabled = true := by
      revert he
      cases r.enabled <;> simp
    by_cases h2 : r.triggers = []
    · rw [if_pos h2]
      simp [he2, hk, h2]
    · rw [if_neg h2]
      rw [List.any_eq_true]
      constructor
      · rintro ⟨k, hk2, hc⟩
        exact ⟨he2, hk, Or.inr ⟨k, hk2, (strContains_iff q k).mp hc⟩⟩
      · rintro ⟨-, -, htrig⟩
        rcases htrig with htrig | ⟨k, hk2, hsub⟩
        · exact absurd htrig h2
        · exact ⟨k, hk2, (strContains_iff q k).mpr hsub⟩

/-- Claim C7, counterexample: a template containing the [user] marker but no
[system] marker is NOT sectioned — the whole content becomes the user template,
not the text after the marker, contradicting the claim at this input. -/
theorem template_user_only_not_sectioned :
    loadPromptTemplate "hello [user] world" = ("", "hello [user] world") ∧
    strContains "hello [user] world" "[user]" = true ∧
    ("hello [user] world" : String) ≠ "world" := by
  refine ⟨by decide, by decide, by decide⟩

/-- Claim C7 (amended): sectioned parsing happens only when BOTH the [system]
and the [user] marker occur in the template content; if either is absent the
entire content is the user template and the system text is empty.  When both are
present the [system] section body and the text after [user] are extracted
(stripped), as the concrete instance shows. -/
theorem template_requires_both_markers :
    (∀ content : String,
        ¬ (strContains content "[system]" = true ∧ strContains content "[user]" = true) →
        loadPromptTemplate content = ("", content)) ∧
    loadPromptTemplate "[system] S [user] U" = ("S", "U") := by
  constructor
  · intro content hc
    unfold loadPromptTemplate
    rw [if_neg hc]
  · decide

/-- Witness for template_requires_both_markers at the content "hello". -/
theorem template_requires_both_markers_witness :
    loadPromptTemplate "hello" = ("", "hello") :=
  template_requires_both_markers.1 "hello" (by decide)

/-- Claim C6: a non-empty raw response on which structured parsing fails yields
success = true, summary = the first 1000 characters of the raw input, and a
non-empty recorded error message. -/
theorem parse_failure_lenient (loads : String → Except String (List (String × String)))
    (resp : String) (e : String)
    (hne : pyStrip resp ≠ "")
    (hfail : loads (pyStrip (extractJsonStr resp)) = .error e) :
    parseResponse loads resp =
      { raw_response := resp, success := true, summary := pyTake resp 1000,
        error := "解析错误: " ++ e } ∧
    (parseResponse loads resp).error ≠ "" := by
  have hr : ¬ (resp = "" ∨ pyStrip resp = "") := by
    rintro (h | h)
    · subst h
      exact hne rfl
    · exact hne h
  unfold parseResponse
  rw [if_neg hr, hfail]
  exact ⟨rfl, string_append_ne_empty "解析错误: " e (by decide)⟩

/-- Witness for parse_failure_lenient on the input "not json at all". -/
theorem parse_failure_lenient_witness :
    parseResponse (fun _ => .error "Expecting value") "not json at all" =
      { raw_response := "not json at all", success := true,
        summary := "not json at all", error := "解析错误: Expecting value" } ∧
    (parseResponse (fun _ => .error "Expecting value") "not json at all").error ≠ "" :=
  parse_failure_lenient (fun _ => .error "Expecting value") "not json at all"
    "Expecting value" (by decide) rfl

/-- Claim C9: the raw_response field of the parse result is always the full
input string, verbatim, on every input and every loads behaviour. -/
theorem parse_raw_response_verbatim
    (loads : String → Except String (List (String × String))) (resp : String) :
    (parseResponse loads resp).raw_response = resp := by
  unfold parseResponse
  split
  · rfl
  · split <;> rfl

/-- Claim C8: with an empty api key, analyze returns success = false with the
configuration-error message and attempts zero LLM calls; the result is the same
for every collaborator behaviour and every input, and since any reached
researcher invocation would surface as an Except.error (see searchAndResearch),
the .ok result also shows that no research call was attempted. -/
theorem analyze_empty_key_no_calls (a : AIAnalyzer) (callApi : String → Except PyErr String)
    (loads : String → Except String (List (String × String)))
    (stats rss_stats : List StatGroup) (rmode rtype : String)
    (platforms keywords : List String) (ctime : String)
    (h : a.api_key = "") :
    analyze a callApi loads stats rss_stats rmode rtype platforms keywords ctime =
      (.ok { success := false, error := noApiKeyMsg }, 0) := by
  unfold analyze
  rw [if_pos h]

/-- Witness for analyze_empty_key_no_calls: keyless analyzer, research enabled,
one RSS item supplied. -/
theorem analyze_empty_key_no_calls_witness :
    analyze analyzerNoKey (fun _ => .ok "ok") (fun _ => .error "x")
      [] [⟨"", [⟨"突发新闻", none⟩]⟩] "daily" "当日汇总" [] [] "t" =
      (.ok { success := false, error := noApiKeyMsg }, 0) :=
  analyze_empty_key_no_calls analyzerNoKey (fun _ => .ok "ok") (fun _ => .error "x")
    [] [⟨"", [⟨"突发新闻", none⟩]⟩] "daily" "当日汇总" [] [] "t" rfl

/-- Claim C10: whenever the trigger gate returns false, search_news returns the
empty list and issues no HTTP request (request counter 0, for every http
behaviour). -/
theorem search_news_closed_gate_no_request (r : Researcher)
    (http : SearchPayload → HttpOutcome) (q : String) (iu : Bool) (mr : Option Int)
    (h : r.shouldTrigger q = false) :
    r.searchNews http q iu mr = (.ok [], 0) := by
  unfold Researcher.searchNews
  rw [if_pos h]

/-- Witness for search_news_closed_gate_no_request: disabled researcher, a
query matching its keyword, an http double that would report a timeout. -/
theorem search_news_closed_gate_no_request_witness :
    Researcher.searchNews researcherGateClosed (fun _ => .err .timeout) "AI新闻" true none =
      (.ok [], 0) :=
  search_news_closed_gate_no_request researcherGateClosed (fun _ => .err .timeout)
    "AI新闻" true none rfl

/-- Claim C5, counterexample: with the gate open, a transport error raised by
the search request propagates out of search_news (it is an Except.error, which
is never an .ok "not found" result) — the claim says it would be swallowed. -/
theorem search_news_timeout_escapes :
    Researcher.searchNews researcherOn (fun _ => .err .timeout) "突发" true none =
      (.error .timeout, 1) ∧
    ∀ items : List ResultItem,
      (Except.error PyErr.timeout : Except PyErr (List ResultItem)) ≠ .ok items := by
  refine ⟨by decide, ?_⟩
  intro items hc
  exact Except.noConfusion hc

/-- Claim C5 (amended): Researcher.search_news propagates transport errors,
non-2xx responses and malformed JSON to its caller (it contains no exception
handling), while the config-variant fetch_deep_content swallows transport and
JSON failures and returns the empty string. -/
theorem research_failure_split :
    (∀ (r : Researcher) (q : String) (iu : Bool) (mr : Option Int) (e : PyErr),
        r.shouldTrigger q = true →
        r.searchNews (fun _ => .err e) q iu mr = (.error e, 1)) ∧
    (∀ (r : Researcher) (q : String) (iu : Bool) (mr : Option Int) (st : Int) (body : JsonBody),
        r.shouldTrigger q = true → 400 ≤ st → st < 600 →
        r.searchNews (fun _ => .resp st body) q iu mr = (.error (.httpError st), 1)) ∧
    (∀ (r : Researcher) (q : String) (iu : Bool) (mr : Option Int) (st : Int) (m : String),
        r.shouldTrigger q = true → ¬ (400 ≤ st ∧ st < 600) →
        r.searchNews (fun _ => .resp st (.malformed m)) q iu mr = (.error (.jsonError m), 1)) ∧
    (∀ (cr : ConfigResearcher) (t : String) (e : PyErr),
        (cr.fetchDeepContent (fun _ => .err e) t).1 = "") ∧
    (∀ (cr : ConfigResearcher) (t : String) (st : Int) (m : String),
        (cr.fetchDeepContent (fun _ => .resp st (.malformed m)) t).1 = "") := by
  refine ⟨?_, ?_, ?_, ?_, ?_⟩
  · intro r q iu mr e h
    simp [Researcher.searchNews, h]
  · intro r q iu mr st body h h4 h6
    simp [Researcher.searchNews, h, h4, h6]
  · intro r q iu mr st m h hn
    simp [Researcher.searchNews, h, hn]
  · intro cr t e
    unfold ConfigResearcher.fetchDeepContent
    split <;> rfl
  · intro cr t st m
    unfold ConfigResearcher.fetchDeepContent
    split <;> rfl

/-- Witness for research_failure_split: open-gate researcher with a failing
transport, and a config-variant researcher whose request also fails. -/
theorem research_failure_split_witness :
    Researcher.searchNews researcherOn (fun _ => .err .connectionError) "热点" true none =
      (.error .connectionError, 1) ∧
    (ConfigResearcher.fetchDeepContent configResearcherOn
      (fun _ => .err .connectionError) "新消息").1 = "" :=
  ⟨research_failure_split.1 researcherOn "热点" true none .connectionError rfl,
   research_failure_split.2.2.2.1 configResearcherOn "新消息" .connectionError⟩

/-- Claim C1: a failure arising inside the research layer during content
aggregation — here the AttributeError from the missing search_and_research
method, raised as soon as deep research is enabled and an RSS title is walked —
escapes AIAnalyzer.analyze as a raw exception instead of being converted into an
AnalysisResult with success = false, because _prepare_news_content runs outside
the try block (analyzer.py line 113). -/
theorem analyze_research_exception_escapes :
    analyze analyzerC1 (fun _ => .ok "ok") (fun _ => .error "x")
      [] [⟨"", [⟨"突发新闻", none⟩]⟩] "daily" "当日汇总" [] [] "2026-10-12 00:00:00" =
      (.error (.attributeError attrMsg), 0) := by
  decide

/-! Counting lemmas for the aggregation loops. -/

/-- totalTitles of the empty group list. -/
theorem totalTitles_nil : totalTitles [] = 0 := rfl

/-- totalTitles unfolding on cons. -/
theorem totalTitles_cons (g : StatGroup) (gs : List StatGroup) :
    totalTitles (g :: gs) = (g.titles.length : Int) + totalTitles gs := by
  simp [totalTitles]

/-- totalTitles is non-negative. -/
theorem totalTitles_nonneg (gs : List StatGroup) : 0 ≤ totalTitles gs := by
  induction gs with
  | nil => simp [totalTitles]
  | cons g gs ih =>
    rw [totalTitles_cons]
    omega

/-- Count bound for the inner RSS loop: a successful pass adds at most the
number of walked items, and once below the cap it never exceeds the cap. -/
theorem rssItems_count (rc : Researcher) (mx : Int) :
    ∀ (ts : List TitleItem) (lines : List String) (c : Int) (l2 : List String) (c2 : Int),
      rssItems rc mx ts lines c = .ok (l2, c2) →
      c2 ≤ c + ts.length ∧ (c < mx → c2 ≤ mx) := by
  intro ts
  induction ts with
  | nil =>
    intro lines c l2 c2 h
    simp only [rssItems, Except.ok.injEq, Prod.mk.injEq] at h
    obtain ⟨-, h2⟩ := h
    subst h2
    constructor
    · simp
    · omega
  | cons t ts ih =>
    intro lines c l2 c2 h
    simp only [rssItems] at h
    by_cases ht : t.title = ""
    · rw [if_pos ht] at h
      have h3 := ih lines c l2 c2 h
      refine ⟨?_, h3.2⟩
      have h4 := h3.1
      simp only [List.length_cons] at *
      omega
    · rw [if_neg ht] at h
      by_cases he : rc.enabled = true
      · rw [if_pos he] at h
        simp only [searchAndResearch] at h
        exact Except.noConfusion h
      · rw [if_neg he] at h
        simp only [] at h
        by_cases hm : mx ≤ c + 1
        · rw [if_pos hm] at h
          simp only [Except.ok.injEq, Prod.mk.injEq] at h
          obtain ⟨-, h2⟩ := h
          subst h2
          constructor
          · simp only [List.length_cons]
            omega
          · omega
        · rw [if_neg hm] at h
          have h3 := ih _ _ _ _ h
          have h4 := h3.1
          have h5 := h3.2
          constructor
          · simp only [List.length_cons] at *
            omega
          · intro hc
            exact h5 (by omega)

/-- Count bound for the inner hot-list loop, same shape as rssItems_count. -/
theorem hotItems_count (rc : Researcher) (mx : Int) :
    ∀ (ts : List TitleItem) (lines : List String) (c : Int) (l2 : List String) (c2 : Int),
      hotItems rc mx ts lines c = .ok (l2, c2) →
      c2 ≤ c + ts.length ∧ (c < mx → c2 ≤ mx) := by
  intro ts
  induction ts with
  | nil =>
    intro lines c l2 c2 h
    simp only [hotItems, Except.ok.injEq, Prod.mk.injEq] at h
    obtain ⟨-, h2⟩ := h
    subst h2
    constructor
    · simp
    · omega
  | cons t ts ih =>
    intro lines c l2 c2 h
    simp only [hotItems] at h
    by_cases ht : t.title = ""
    · rw [if_pos ht] at h
      have h3 := ih lines c l2 c2 h
      refine ⟨?_, h3.2⟩
      have h4 := h3.1
      simp only [List.length_cons] at *
      omega
    · rw [if_neg ht] at h
      by_cases he : hotKeywordHit t.title = true
      · rw [if_pos he] at h
        simp only [searchAndResearch] at h
        exact Except.noConfusion h
      · rw [if_neg he] at h
        simp only [] at h
        by_cases hm : mx ≤ c + 1
        · rw [if_pos hm] at h
          simp only [Except.ok.injEq, Prod.mk.injEq] at h
          obtain ⟨-, h2⟩ := h
          subst h2
          constructor
          · simp only [List.length_cons]
            omega
          · omega
        · rw [if_neg hm] at h
          have h3 := ih _ _ _ _ h
          have h4 := h3.1
          have h5 := h3.2
          constructor
          · simp only [List.length_cons] at *
            omega
          · intro hc
            exact h5 (by omega)

/-- Count bound for the outer RSS loop over groups. -/
theorem rssGroups_count (rc : Researcher) (mx : Int) :
    ∀ (gs : List StatGroup) (lines : List String) (c : Int) (l2 : List String) (c2 : Int),
      rssGroups rc mx gs lines c = .ok (l2, c2) →
      c2 ≤ c + totalTitles gs ∧ (c < mx → c2 ≤ mx) := by
  intro gs
  induction gs with
  | nil =>
    intro lines c l2 c2 h
    simp only [rssGroups, Except.ok.injEq, Prod.mk.injEq] at h
    obtain ⟨-, h2⟩ := h
    subst h2
    rw [totalTitles_nil]
    constructor
    · omega
    · omega
  | cons g gs ih =>
    intro lines c l2 c2 h
    simp only [rssGroups] at h
    cases hmid : rssItems rc mx g.titles lines c with
    | error e =>
      rw [hmid] at h
      exact Except.noConfusion h
    | ok p =>
      obtain ⟨lmid, cmid⟩ := p
      rw [hmid] at h
      simp only [] at h
      have h1 := rssItems_count rc mx g.titles lines c lmid cmid hmid
      rw [totalTitles_cons]
      have hnn := totalTitles_nonneg gs
      by_cases hm : mx ≤ cmid
      · rw [if_pos hm] at h
        simp only [Except.ok.injEq, Prod.mk.injEq] at h
        obtain ⟨-, h2⟩ := h
        subst h2
        constructor
        · have := h1.1
          omega
        · exact h1.2
      · rw [if_neg hm] at h
        have h2 := ih _ _ _ _ h
        have h3 := h1.1
        constructor
        · have := h2.1
          omega
        · intro hc
          exact h2.2 (by omega)

/-- Count bound for the outer hot-list loop over groups. -/
theorem hotGroups_count (rc : Researcher) (mx : Int) :
    ∀ (gs : List StatGroup) (lines : List String) (c : Int) (l2 : List String) (c2 : Int),
      hotGroups rc mx gs lines c = .ok (l2, c2) →
      c2 ≤ c + totalTitles gs ∧ (c < mx → c2 ≤ mx) := by
  intro gs
  induction gs with
  | nil =>
    intro lines c l2 c2 h
    simp only [hotGroups, Except.ok.injEq, Prod.mk.injEq] at h
    obtain ⟨-, h2⟩ := h
    subst h2
    rw [totalTitles_nil]
    constructor
    · omega
    · omega
  | cons g gs ih =>
    intro lines c l2 c2 h
    simp only [hotGroups] at h
    rw [totalTitles_cons]
    have hnn := totalTitles_nonneg gs
    by_cases hg : g.word ≠ "" ∧ g.titles ≠ []
    · rw [if_pos hg] at h
      cases hmid : hotItems rc mx g.titles lines c with
      | error e =>
        rw [hmid] at h
        exact Except.noConfusion h
      | ok p =>
        obtain ⟨lmid, cmid⟩ := p
        rw [hmid] at h
        simp only [] at h
        have h1 := hotItems_count rc mx g.titles lines c lmid cmid hmid
        by_cases hm : mx ≤ cmid
        · rw [if_pos hm] at h
          simp only [Except.ok.injEq, Prod.mk.injEq] at h
          obtain ⟨-, h2⟩ := h
          subst h2
          constructor
          · have := h1.1
            omega
          · exact h1.2
        · rw [if_neg hm] at h
          have h2 := ih _ _ _ _ h
          have h3 := h1.1
          constructor
          · have := h2.1
            omega
          · intro hc
            exact h2.2 (by omega)
    · rw [if_neg hg] at h
      by_cases hm : mx ≤ c
      · rw [if_pos hm] at h
        simp only [Except.ok.injEq, Prod.mk.injEq] at h
        obtain ⟨-, h2⟩ := h
        subst h2
        constructor
        · omega
        · omega
      · rw [if_neg hm] at h
        have h2 := ih _ _ _ _ h
        constructor
        · have := h2.1
          omega
        · intro hc
          exact h2.2 (by omega)

/-- Claim C3 (amended): on every successful aggregation the analyzed count never
exceeds the total number of supplied items (hotlistCount + rssCount), and —
provided the configured cap is at least 1 (the repository default is 50) — it
never exceeds maxNewsLimit.  (For max_news ≤ 0 the cap bound fails, see the
counterexample.) -/
theorem prepare_counts_bounded (a : AIAnalyzer) (stats rss_stats : List StatGroup)
    (content : String) (hot rsst cnt : Int)
    (h : prepareNewsContent a stats rss_stats = .ok (content, hot, rsst, cnt)) :
    cnt ≤ hot + rsst ∧ (1 ≤ a.max_news → cnt ≤ a.max_news) := by
  unfold prepareNewsContent at h
  have hnns := totalTitles_nonneg stats
  have hnnr := totalTitles_nonneg rss_stats
  by_cases h1 : a.include_rss = true ∧ rss_stats ≠ []
  · rw [if_pos h1] at h
    cases hr1 : rssGroups a.researcher a.max_news rss_stats ["\n### RSS 重点追踪 (深度增强)"] 0 with
    | error e =>
      rw [hr1] at h
      exact Except.noConfusion h
    | ok p1 =>
      obtain ⟨lines1, c1⟩ := p1
      rw [hr1] at h
      simp only [] at h
      have hb1 := rssGroups_count a.researcher a.max_news rss_stats _ 0 lines1 c1 hr1
      by_cases h2 : stats ≠ [] ∧ c1 < a.max_news
      · rw [if_pos h2] at h
        cases hr2 : hotGroups a.researcher a.max_news stats (lines1 ++ ["\n### 社交热榜趋势"]) c1 with
        | error e =>
          rw [hr2] at h
          exact Except.noConfusion h
        | ok p2 =>
          obtain ⟨lines2, c2⟩ := p2
          rw [hr2] at h
          simp only [Except.ok.injEq, Prod.mk.injEq] at h
          obtain ⟨-, hhot, hrss, hcnt⟩ := h
          have hb2 := hotGroups_count a.researcher a.max_news stats _ c1 lines2 c2 hr2
          constructor
          · have h3 := hb1.1
            have h4 := hb2.1
            omega
          · intro hmx
            have h5 := hb2.2 h2.2
            omega
      · rw [if_neg h2] at h
        simp only [Except.ok.injEq, Prod.mk.injEq] at h
        obtain ⟨-, hhot, hrss, hcnt⟩ := h
        constructor
        · have h3 := hb1.1
          omega
        · intro hmx
          have h4 := hb1.2 (by omega)
          omega
  · rw [if_neg h1] at h
    simp only [] at h
    by_cases h2 : stats ≠ [] ∧ (0:Int) < a.max_news
    · rw [if_pos h2] at h
      cases hr2 : hotGroups a.researcher a.max_news stats ([] ++ ["\n### 社交热榜趋势"]) 0 with
      | error e =>
        rw [hr2] at h
        exact Except.noConfusion h
      | ok p2 =>
        obtain ⟨lines2, c2⟩ := p2
        rw [hr2] at h
        simp only [Except.ok.injEq, Prod.mk.injEq] at h
        obtain ⟨-, hhot, hrss, hcnt⟩ := h
        have hb2 := hotGroups_count a.researcher a.max_news stats _ 0 lines2 c2 hr2
        constructor
        · have h3 := hb2.1
          omega
        · intro hmx
          have h4 := hb2.2 h2.2
          omega
    · rw [if_neg h2] at h
      simp only [Except.ok.injEq, Prod.mk.injEq] at h
      obtain ⟨-, hhot, hrss, hcnt⟩ := h
      constructor
      · omega
      · intro hmx
        omega

/-- Witness for prepare_counts_bounded: cap 5, one hot-list and one RSS item,
aggregation succeeds with count 2. -/
theorem prepare_counts_bounded_witness :
    (2 : Int) ≤ 1 + 1 ∧
    ((1 : Int) ≤ analyzerCapFive.max_news → (2 : Int) ≤ analyzerCapFive.max_news) :=
  prepare_counts_bounded analyzerCapFive [⟨"词", [⟨"体育新闻", none⟩]⟩]
    [⟨"", [⟨"财经报道", none⟩]⟩]
    "\n### RSS 重点追踪 (深度增强)\n- [RSS源] 财经报道\n\n### 社交热榜趋势\n- [热榜] 体育新闻"
    1 1 2 (by decide)

/-- Claim C3, counterexample: with maxNewsLimit = 0 the cap check fires only
after an item was appended, so one RSS item is included and analyzedNews = 1
exceeds maxNewsLimit = 0 (while hotlistCount = 0, rssCount = 1). -/
theorem prepare_cap_zero_violation :
    prepareNewsContent analyzerCapZero [] [⟨"", [⟨"新闻", none⟩]⟩] =
      .ok ("\n### RSS 重点追踪 (深度增强)\n- [RSS源] 新闻", 0, 1, 1) ∧
    ¬ ((1 : Int) ≤ analyzerCapZero.max_news) := by
  refine ⟨by decide, by decide⟩

/-- Claim C4: with RSS inclusion enabled and maxNews = 1, when one RSS item and
one hot-list item are available exactly the RSS item is included (the hot-list
section is not even opened); with maxNews = 3, two RSS items and one hot-list
item, the block lists the RSS lines first, in supplied order, followed by the
hot-list line — RSS items are consumed before any hot-list item counts against
the cap.  Hypotheses: aggregation must complete, i.e. deep research disabled and
the hot title missing the fixed allow-list keywords (otherwise the walk raises,
see the C1 result). -/
theorem rss_included_before_hotlist
    (a1 a3 : AIAnalyzer)
    (h1rss : a1.include_rss = true) (h1mx : a1.max_news = 1)
    (h1en : a1.researcher.enabled = false)
    (h3rss : a3.include_rss = true) (h3mx : a3.max_news = 3)
    (h3en : a3.researcher.enabled = false)
    (rt1 rt2 ht w : String) (rs1 rs2 hs : Option String)
    (hrt1 : rt1 ≠ "") (hrt2 : rt2 ≠ "") (hht : ht ≠ "") (hw : w ≠ "")
    (hkw : hotKeywordHit ht = false) :
    prepareNewsContent a1 [⟨w, [⟨ht, hs⟩]⟩] [⟨"", [⟨rt1, rs1⟩]⟩] =
      .ok (pyJoin "\n" ["\n### RSS 重点追踪 (深度增强)", rssItemLine ⟨rt1, rs1⟩ ""],
        1, 1, 1) ∧
    prepareNewsContent a3 [⟨w, [⟨ht, hs⟩]⟩] [⟨"", [⟨rt1, rs1⟩, ⟨rt2, rs2⟩]⟩] =
      .ok (pyJoin "\n" ["\n### RSS 重点追踪 (深度增强)", rssItemLine ⟨rt1, rs1⟩ "",
            rssItemLine ⟨rt2, rs2⟩ "", "\n### 社交热榜趋势", hotItemLine ⟨ht, hs⟩ ""],
        1, 2, 3) := by
  constructor
  · norm_num [prepareNewsContent, rssGroups, rssItems, hotGroups, hotItems, totalTitles,
      pyJoin, h1rss, h1mx, h1en, hrt1, hw, hht, hkw]
  · norm_num [prepareNewsContent, rssGroups, rssItems, hotGroups, hotItems, totalTitles,
      pyJoin, h3rss, h3mx, h3en, hrt1, hrt2, hw, hht, hkw]

/-- Witness for rss_included_before_hotlist at concrete configurations and
items. -/
theorem rss_included_before_hotlist_witness :
    prepareNewsContent analyzerCapOne [⟨"词", [⟨"热榜丙", none⟩]⟩] [⟨"", [⟨"RSS甲", none⟩]⟩] =
      .ok (pyJoin "\n" ["\n### RSS 重点追踪 (深度增强)", rssItemLine ⟨"RSS甲", none⟩ ""],
        1, 1, 1) ∧
    prepareNewsContent analyzerCapThree [⟨"词", [⟨"热榜丙", none⟩]⟩]
      [⟨"", [⟨"RSS甲", none⟩, ⟨"RSS乙", none⟩]⟩] =
      .ok (pyJoin "\n" ["\n### RSS 重点追踪 (深度增强)", rssItemLine ⟨"RSS甲", none⟩ "",
            rssItemLine ⟨"RSS乙", none⟩ "", "\n### 社交热榜趋势", hotItemLine ⟨"热榜丙", none⟩ ""],
        1, 2, 3) :=
  rss_included_before_hotlist analyzerCapOne analyzerCapThree rfl rfl rfl rfl rfl rfl
    "RSS甲" "RSS乙" "热榜丙" "词" none none none
    (by decide) (by decide) (by decide) (by decide) (by decide)

end TRSearch
